import Mathlib

/-!
Verification of the SkillSwap proximity-based user-discovery logic.

This file is a shallow embedding of the discovery code of the repository:

* `utils/distance.ts` (`haversineDistance`), embedded over `ℝ`, with
  `Math.atan2` modelled by its standard piecewise definition;
* `app/(app)/skills.tsx`: the candidate-set builder `loadUsers`
  (the inclusion predicate and the skill accumulation that populates the
  skill selector), the filter pipeline `applyFilters` (skill+role stage,
  free-text stage, radius stage), and the pagination logic
  (`totalPages`, `paginatedUsers` slice, `nextPage`, `prevPage`).

JavaScript dynamic values are embedded explicitly: the Firestore
`location` field may be absent (`none`), a legacy string, or an object
whose `latitude`/`longitude` fields may individually be missing
(`Option ℝ`).  JavaScript truthiness tests that appear in the code
(`!u.location`, `typeof u.location !== 'object'`, `!u.location.latitude`,
`data.skillsTeaching && ...`, `searchText.trim()`) are embedded by an
explicit case analysis that matches the JavaScript semantics: `undefined`,
`null`, `0`, `NaN` and `""` are falsy, every object (including an empty
array) is truthy.
-/

namespace SkillSwap

/-- Degrees-to-radians conversion `toRad` from `utils/distance.ts`. -/
noncomputable def toRad (deg : ℝ) : ℝ := deg * Real.pi / 180

/-- The function `Math.atan2 y x`, modelled by its standard piecewise definition on ℝ
(the NaN inputs of JavaScript cannot arise in the exact-real embedding of
`haversineDistance`, where the argument `a` always lies in `[0, 1]`). -/
noncomputable def atan2 (y x : ℝ) : ℝ :=
  if 0 < x then Real.arctan (y / x)
  else if x < 0 then
    (if 0 ≤ y then Real.arctan (y / x) + Real.pi else Real.arctan (y / x) - Real.pi)
  else
    (if 0 < y then Real.pi / 2 else if y < 0 then -(Real.pi / 2) else 0)

/-- A structured coordinate `{ latitude: number; longitude: number }`. -/
structure Coord where
  latitude : ℝ
  longitude : ℝ

/-- The function `haversineDistance` from `utils/distance.ts`, with `R = 6371` km. -/
noncomputable def haversineDistance (coords1 coords2 : Coord) : ℝ :=
  let R : ℝ := 6371
  let dLat := toRad (coords2.latitude - coords1.latitude)
  let dLon := toRad (coords2.longitude - coords1.longitude)
  let lat1 := toRad coords1.latitude
  let lat2 := toRad coords2.latitude
  let a := Real.sin (dLat / 2) ^ 2 +
    Real.cos lat1 * Real.cos lat2 * Real.sin (dLon / 2) ^ 2
  let c := 2 * atan2 (Real.sqrt a) (Real.sqrt (1 - a))
  R * c

/-- A runtime value of the dynamically-typed `location` field of a user
document: either a legacy string or an object whose `latitude` /
`longitude` properties may individually be `undefined`. -/
inductive LocationVal where
  | strVal (s : String)
  | objVal (latitude : Option ℝ) (longitude : Option ℝ)

/-- User status from the `UserWithSkills` interface in `skills.tsx`. -/
inductive Status where
  | online
  | offline
  | inCall
deriving Repr, DecidableEq

/-- The `UserWithSkills` interface of `skills.tsx` (the `location` field
is typed `any` in the source and embedded as `Option LocationVal`,
`none` standing for `null`). -/
structure User where
  id : String
  uid : String
  displayName : String
  email : String
  skillsTeaching : List String
  skillsLearning : List String
  bio : Option String
  location : Option LocationVal
  status : Status
  averageRating : ℝ
  reviewCount : ℕ

/-- The role filter type `RoleFilterType = 'All' | 'Teaches' | 'Learns'`. -/
inductive RoleFilter where
  | All
  | Teaches
  | Learns
deriving Repr, DecidableEq

/-- The filter state held by `SkillsScreen`: `selectedSkill`,
`roleFilter`, `searchText`, `useRadiusFilter`, `radius`. -/
structure FilterState where
  selectedSkill : String
  roleFilter : RoleFilter
  searchText : String
  useRadiusFilter : Bool
  radius : ℝ

/-- JavaScript `String.prototype.includes`: `pat` occurs contiguously in
`s` (the empty pattern occurs in every string). -/
def containsSubstr (s pat : String) : Bool := decide (pat.data <:+: s.data)

/-- JavaScript `String.prototype.toLowerCase`, as a character-wise map. -/
def jsToLower (s : String) : String := ⟨s.data.map Char.toLower⟩

/-- JavaScript `String.prototype.trim`: strip whitespace from both ends. -/
def jsTrim (s : String) : String :=
  ⟨((s.data.dropWhile Char.isWhitespace).reverse.dropWhile
      Char.isWhitespace).reverse⟩

/-- The skill & role stage of `applyFilters` (skills.tsx lines 211-228):
for a specific selected skill, keep by `includes` on the relevant list
according to the role filter; for the `'All'` sentinel, only require the
relevant list to be non-empty. -/
def skillRoleStage (selectedSkill : String) (roleFilter : RoleFilter)
    (l : List User) : List User :=
  if selectedSkill ≠ "All" then
    l.filter fun u =>
      let teaches := u.skillsTeaching.contains selectedSkill
      let learns := u.skillsLearning.contains selectedSkill
      match roleFilter with
      | .Teaches => teaches
      | .Learns => learns
      | .All => teaches || learns
  else
    match roleFilter with
    | .Teaches => l.filter fun u => decide (u.skillsTeaching.length > 0)
    | .Learns => l.filter fun u => decide (u.skillsLearning.length > 0)
    | .All => l

/-- The free-text stage of `applyFilters` (skills.tsx lines 231-240):
skipped when the trimmed search text is empty (falsy), otherwise keeps a
user when the lower-cased search string occurs in the display name,
email, bio (which may be `undefined`), or any skill entry. -/
def textStage (searchText : String) (l : List User) : List User :=
  if (jsTrim searchText).isEmpty then l
  else
    let lowerSearch := jsToLower searchText
    l.filter fun u =>
      containsSubstr (jsToLower u.displayName) lowerSearch ||
      containsSubstr (jsToLower u.email) lowerSearch ||
      (match u.bio with
       | some b => containsSubstr (jsToLower b) lowerSearch
       | none => false) ||
      u.skillsTeaching.any
        (fun s => containsSubstr (jsToLower s) lowerSearch) ||
      u.skillsLearning.any
        (fun s => containsSubstr (jsToLower s) lowerSearch)

/-- The radius-stage predicate of `applyFilters` (skills.tsx lines
244-252).  The guard
`if (!u.location || typeof u.location !== 'object' || !u.location.latitude) return false`
rejects, in order: an absent/null location, a legacy string location,
and an object location whose `latitude` is `undefined` or `0` (both
falsy).  If the guard passes but `longitude` is `undefined`, the
JavaScript distance is `NaN` and `NaN <= radius` is `false`, embedded
here as returning `false` directly. -/
noncomputable def radiusKeep (self : Coord) (radius : ℝ) :
    Option LocationVal → Bool
  | none => false
  | some (.strVal _) => false
  | some (.objVal none _) => false
  | some (.objVal (some la) lonOpt) =>
    if la = 0 then false
    else
      match lonOpt with
      | none => false
      | some lo => decide (haversineDistance self ⟨la, lo⟩ ≤ radius)

/-- The radius stage of `applyFilters` (skills.tsx lines 242-253):
applied only when `useRadiusFilter && currentUserLocation` is truthy
(`currentUserLocation` has type `{latitude, longitude} | null`). -/
noncomputable def radiusStage (useRadiusFilter : Bool) (self : Option Coord)
    (radius : ℝ) (l : List User) : List User :=
  match useRadiusFilter, self with
  | true, some c => l.filter fun u => radiusKeep c radius u.location
  | _, _ => l

/-- The function `applyFilters` of `skills.tsx` (lines 208-257): skill & role stage,
then free-text stage, then radius stage, each on the previous output. -/
noncomputable def applyFilters (users : List User) (fs : FilterState)
    (self : Option Coord) : List User :=
  radiusStage fs.useRadiusFilter self fs.radius
    (textStage fs.searchText
      (skillRoleStage fs.selectedSkill fs.roleFilter users))

/-- A raw Firestore user document as read by `loadUsers` (skills.tsx
lines 137-159): every field other than the document id may be absent. -/
structure RawRecord where
  id : String
  displayName : Option String
  email : Option String
  skillsTeaching : Option (List String)
  skillsLearning : Option (List String)
  bio : Option String
  location : Option LocationVal
  status : Option Status
  averageRating : Option ℝ
  reviewCount : Option ℕ

/-- JavaScript truthiness of `arr && arr.length > 0` for an optional
array field: `undefined` is falsy; an array (even empty) is truthy, so
the length test decides. -/
def truthyList : Option (List String) → Bool
  | none => false
  | some l => decide (l.length > 0)

/-- The inclusion test of `loadUsers` (skills.tsx lines 138-143):
`doc.id !== user?.uid` and
`(data.skillsTeaching && data.skillsTeaching.length > 0) || (data.skillsLearning && data.skillsLearning.length > 0)`. -/
def includeRecord (uid : String) (r : RawRecord) : Bool :=
  decide (r.id ≠ uid) &&
    (truthyList r.skillsTeaching || truthyList r.skillsLearning)

/-- The records `loadUsers` pushes onto `usersData`. -/
def includedRecords (records : List RawRecord) (uid : String) :
    List RawRecord :=
  records.filter (includeRecord uid)

/-- JavaScript `a || b` for an optional string `a` (the empty string is
falsy). -/
def orElseStr (a : Option String) (b : String) : String :=
  match a with
  | some s => if s.isEmpty then b else s
  | none => b

/-- JavaScript `data.location || null` (a legacy empty-string location
is falsy and becomes `null`; objects are always truthy). -/
def truthyLoc : Option LocationVal → Option LocationVal
  | some (.strVal s) => if s.isEmpty then none else some (.strVal s)
  | x => x

/-- The `UserWithSkills` object `loadUsers` builds from a document
(skills.tsx lines 144-156), with its `||`-defaults. -/
def toUser (r : RawRecord) : User :=
  { id := r.id
    uid := r.id
    displayName := orElseStr r.displayName (orElseStr r.email "User")
    email := orElseStr r.email ""
    skillsTeaching := r.skillsTeaching.getD []
    skillsLearning := r.skillsLearning.getD []
    bio := some (orElseStr r.bio "")
    location := truthyLoc r.location
    status := r.status.getD .offline
    averageRating := r.averageRating.getD 0
    reviewCount := r.reviewCount.getD 0 }

/-- The candidate set `loadUsers` stores via `setUsers`. -/
def usersData (records : List RawRecord) (uid : String) : List User :=
  (includedRecords records uid).map toUser

/-- The skill names one included document adds to `skillsSet`
(skills.tsx lines 157-158). -/
def recordSkills (r : RawRecord) : List String :=
  r.skillsTeaching.getD [] ++ r.skillsLearning.getD []

/-- The contents of `skillsSet` after the `loadUsers` loop, as a
duplicate-free list (a JavaScript `Set` keeps one copy of each value). -/
def collectedSkills (records : List RawRecord) (uid : String) :
    List String :=
  (((includedRecords records uid).map recordSkills).flatten).dedup

/-- The selector list `setAllSkills(['All', ...Array.from(skillsSet).sort()])`
(skills.tsx line 164): the sentinel, then the distinct skills in
ascending lexicographic order. -/
def allSkills (records : List RawRecord) (uid : String) : List String :=
  "All" :: List.insertionSort (fun a b => a ≤ b) (collectedSkills records uid)

/-- The constant `ITEMS_PER_PAGE = 10` (skills.tsx line 29). -/
def ITEMS_PER_PAGE : ℕ := 10

/-- The page count `Math.ceil(filteredUsers.length / ITEMS_PER_PAGE)` (line 260),
as ceiling division on ℕ. -/
def totalPages (numFiltered : ℕ) : ℕ :=
  (numFiltered + ITEMS_PER_PAGE - 1) / ITEMS_PER_PAGE

/-- JavaScript `Array.prototype.slice(start, stop)`: the elements at indices
`start` to `stop - 1`. -/
def sliceJs (l : List User) (start stop : ℕ) : List User :=
  (l.drop start).take (stop - start)

/-- The slice `paginatedUsers` (skills.tsx lines 261-264):
`filteredUsers.slice((currentPage - 1) * ITEMS_PER_PAGE, currentPage * ITEMS_PER_PAGE)`. -/
def paginatedUsers (filtered : List User) (currentPage : ℕ) : List User :=
  sliceJs filtered ((currentPage - 1) * ITEMS_PER_PAGE)
    (currentPage * ITEMS_PER_PAGE)

/-- The handler `nextPage` (skills.tsx lines 267-269): advance only when
`currentPage < totalPages`, otherwise leave the page unchanged. -/
def nextPage (numFiltered currentPage : ℕ) : ℕ :=
  if currentPage < totalPages numFiltered then currentPage + 1 else currentPage

/-- The handler `prevPage` (skills.tsx lines 272-274): retreat only when
`currentPage > 1`, otherwise leave the page unchanged. -/
def prevPage (currentPage : ℕ) : ℕ :=
  if currentPage > 1 then currentPage - 1 else currentPage

/-! ## Concrete fixtures used by the witness and counterexample theorems -/

/-- Concrete users for the witnesses: only `uX` teaches "Guitar". -/
def uA : User :=
  { id := "a", uid := "a", displayName := "A", email := "",
    skillsTeaching := ["Piano"], skillsLearning := ["Guitar"],
    bio := some "", location := none, status := .offline,
    averageRating := 0, reviewCount := 0 }

def uX : User :=
  { id := "x", uid := "x", displayName := "X", email := "",
    skillsTeaching := ["Guitar"], skillsLearning := [],
    bio := some "", location := none, status := .offline,
    averageRating := 0, reviewCount := 0 }

def uB : User :=
  { id := "b", uid := "b", displayName := "B", email := "",
    skillsTeaching := [], skillsLearning := ["Piano"],
    bio := some "", location := none, status := .offline,
    averageRating := 0, reviewCount := 0 }

/-- A candidate on the equator (latitude exactly 0). -/
noncomputable def uZeroLat : User :=
  { id := "z", uid := "z", displayName := "Z", email := "",
    skillsTeaching := ["Guitar"], skillsLearning := [],
    bio := some "",
    location := some (.objVal (some 0) (some (4.9 * 180 / (6371 * Real.pi)))),
    status := .offline, averageRating := 0, reviewCount := 0 }

/-- A candidate with a legacy string location. -/
def uStrLoc : User :=
  { id := "s", uid := "s", displayName := "S", email := "",
    skillsTeaching := ["Guitar"], skillsLearning := [],
    bio := some "", location := some (.strVal "Paris"),
    status := .offline, averageRating := 0, reviewCount := 0 }

/-- A candidate whose location object has a latitude but no longitude. -/
def uLatOnly : User :=
  { id := "p", uid := "p", displayName := "P", email := "",
    skillsTeaching := ["Guitar"], skillsLearning := [],
    bio := some "", location := some (.objVal (some 1) none),
    status := .offline, averageRating := 0, reviewCount := 0 }

/-- C1 counterexample input: the filter state of the C1 scenario
(radius filter on, radius 5, no other filter active). -/
noncomputable def fsRadius5 : FilterState :=
  { selectedSkill := "All", roleFilter := .All, searchText := "",
    useRadiusFilter := true, radius := 5 }

/-- A candidate 4.9 km due north of the origin (nonzero latitude). -/
noncomputable def uNear : User :=
  { id := "n", uid := "n", displayName := "N", email := "",
    skillsTeaching := ["Guitar"], skillsLearning := [],
    bio := some "",
    location := some (.objVal (some (4.9 * 180 / (6371 * Real.pi))) (some 0)),
    status := .offline, averageRating := 0, reviewCount := 0 }

/-- A candidate 5.1 km due north of the origin. -/
noncomputable def uFar : User :=
  { id := "f", uid := "f", displayName := "F", email := "",
    skillsTeaching := ["Guitar"], skillsLearning := [],
    bio := some "",
    location := some (.objVal (some (5.1 * 180 / (6371 * Real.pi))) (some 0)),
    status := .offline, averageRating := 0, reviewCount := 0 }

/-- A candidate with no location at all. -/
def uNoLoc : User :=
  { id := "o", uid := "o", displayName := "O", email := "",
    skillsTeaching := ["Guitar"], skillsLearning := [],
    bio := some "", location := none, status := .offline,
    averageRating := 0, reviewCount := 0 }

/-! ## Helper lemmas -/

lemma truthyList_eq_true_iff (o : Option (List String)) :
    truthyList o = true ↔ o.getD [] ≠ [] := by
  cases o <;> simp [truthyList, List.length_pos]

lemma skillRoleStage_sublist (sel : String) (role : RoleFilter)
    (l : List User) : List.Sublist (skillRoleStage sel role l) l := by
  unfold skillRoleStage
  split
  · exact List.filter_sublist l
  · cases role
    · exact List.Sublist.refl l
    · exact List.filter_sublist l
    · exact List.filter_sublist l

lemma textStage_sublist (q : String) (l : List User) :
    List.Sublist (textStage q l) l := by
  unfold textStage
  split
  · exact List.Sublist.refl l
  · exact List.filter_sublist l

lemma radiusStage_sublist (b : Bool) (self : Option Coord) (r : ℝ)
    (l : List User) : List.Sublist (radiusStage b self r l) l := by
  unfold radiusStage
  cases b <;> cases self
  · exact List.Sublist.refl l
  · exact List.Sublist.refl l
  · exact List.Sublist.refl l
  · exact List.filter_sublist l

lemma radiusStage_some_eq_filter (c : Coord) (r : ℝ) (l : List User) :
    radiusStage true (some c) r l =
      l.filter fun u => radiusKeep c r u.location := rfl

lemma not_mem_radiusStage_of_keep_false {c : Coord} {r : ℝ}
    {u : User} (l : List User)
    (h : radiusKeep c r u.location = false) :
    u ∉ radiusStage true (some c) r l := by
  rw [radiusStage_some_eq_filter]
  intro hmem
  have := (List.mem_filter.mp hmem).2
  rw [h] at this
  exact Bool.false_ne_true this

/-! ## Claims -/

/-- C2: a fetched record enters the candidate set built by `loadUsers`
iff its document id differs from the current user's id and its
taught-skill or learned-skill list is non-empty (an absent list counts
as empty); the candidate set is exactly the image of those records. -/
theorem claim2_loader_inclusion :
    ∀ (records : List RawRecord) (uid : String),
      usersData records uid = (includedRecords records uid).map toUser ∧
      ∀ r : RawRecord,
        r ∈ includedRecords records uid ↔
          r ∈ records ∧ r.id ≠ uid ∧
            (r.skillsTeaching.getD [] ≠ [] ∨
             r.skillsLearning.getD [] ≠ []) := by
  intro records uid
  refine ⟨rfl, fun r => ?_⟩
  rw [includedRecords, List.mem_filter, includeRecord,
    Bool.and_eq_true, Bool.or_eq_true, truthyList_eq_true_iff,
    truthyList_eq_true_iff, decide_eq_true_iff]

/-- C4: when the current user's own coordinate is absent
(`currentUserLocation === null`), the radius stage removes no candidate
even with the toggle enabled, and the whole pipeline degenerates to the
first two stages. -/
theorem claim4_radius_stage_skipped_without_self_location :
    (∀ (r : ℝ) (l : List User), radiusStage true none r l = l) ∧
    (∀ (users : List User) (fs : FilterState),
      applyFilters users fs none =
        textStage fs.searchText
          (skillRoleStage fs.selectedSkill fs.roleFilter users)) := by
  constructor
  · intro r l; rfl
  · intro users fs
    rcases h : fs.useRadiusFilter <;> simp [applyFilters, radiusStage, h]

/-- C6: the filter pipeline only ever deletes elements: its output is a
sublist (subsequence, in input order) of the input candidate list. -/
theorem claim6_pipeline_preserves_order :
    ∀ (users : List User) (fs : FilterState) (self : Option Coord),
      List.Sublist (applyFilters users fs self) users := by
  intro users fs self
  exact ((radiusStage_sublist _ _ _ _).trans
    (textStage_sublist _ _)).trans (skillRoleStage_sublist _ _ _)

/-- C3: characterisation of the skill & role stage, for a specific
selected skill and for the `'All'` sentinel, plus the three-candidate
"Guitar" scenario. -/
theorem claim3_skill_role_stage :
    (∀ (sel : String) (role : RoleFilter) (l : List User) (u : User),
      sel ≠ "All" →
      (u ∈ skillRoleStage sel role l ↔ u ∈ l ∧
        match role with
        | .Teaches => sel ∈ u.skillsTeaching
        | .Learns => sel ∈ u.skillsLearning
        | .All => sel ∈ u.skillsTeaching ∨ sel ∈ u.skillsLearning)) ∧
    (∀ (role : RoleFilter) (l : List User) (u : User),
      u ∈ skillRoleStage "All" role l ↔ u ∈ l ∧
        match role with
        | .Teaches => u.skillsTeaching ≠ []
        | .Learns => u.skillsLearning ≠ []
        | .All => True) ∧
    (∀ a x b : User,
      a.skillsTeaching.contains "Guitar" = false →
      x.skillsTeaching.contains "Guitar" = true →
      b.skillsTeaching.contains "Guitar" = false →
      skillRoleStage "Guitar" .Teaches [a, x, b] = [x]) := by
  refine ⟨fun sel role l u hsel => ?_, fun role l u => ?_, fun a x b ha hx hb => ?_⟩
  · unfold skillRoleStage
    rw [if_pos hsel, List.mem_filter]
    cases role <;> simp [List.elem_iff]
  · unfold skillRoleStage
    rw [if_neg (by simp)]
    cases role <;> simp [List.mem_filter, List.length_pos]
  · have ha2 : "Guitar" ∉ a.skillsTeaching := by
      simpa [List.elem_iff] using ha
    have hx2 : "Guitar" ∈ x.skillsTeaching := by
      simpa [List.elem_iff] using hx
    have hb2 : "Guitar" ∉ b.skillsTeaching := by
      simpa [List.elem_iff] using hb
    unfold skillRoleStage
    rw [if_pos (by decide)]
    simp [List.filter, ha2, hx2, hb2]

theorem claim3_skill_role_stage_witness :
    (uX ∈ skillRoleStage "Guitar" .Teaches [uA, uX, uB] ↔
      uX ∈ [uA, uX, uB] ∧ "Guitar" ∈ uX.skillsTeaching) ∧
    skillRoleStage "Guitar" .Teaches [uA, uX, uB] = [uX] :=
  ⟨claim3_skill_role_stage.1 "Guitar" .Teaches [uA, uX, uB] uX (by decide),
   claim3_skill_role_stage.2.2 uA uX uB (by decide) (by decide) (by decide)⟩

/-- C5: pagination slices the filtered list into pages of 10 (25 results
give a 10-element page 1 and a 5-element page 3), `nextPage` on the last
page and `prevPage` on page 1 are no-ops, and both operations keep the
page within `[1, totalPages]`. -/
theorem claim5_pagination (l : List User) (h : l.length = 25) :
    (paginatedUsers l 1).length = 10 ∧
    (paginatedUsers l 3).length = 5 ∧
    nextPage l.length 3 = 3 ∧
    prevPage 1 = 1 ∧
    (∀ (l' : List User) (p : ℕ), 1 ≤ p →
      (paginatedUsers l' p).length ≤ ITEMS_PER_PAGE ∧
      (p * ITEMS_PER_PAGE ≤ l'.length →
        (paginatedUsers l' p).length = ITEMS_PER_PAGE)) ∧
    (∀ n p : ℕ, 1 ≤ p → p ≤ totalPages n →
      1 ≤ nextPage n p ∧ nextPage n p ≤ totalPages n ∧
      1 ≤ prevPage p ∧ prevPage p ≤ totalPages n) := by
  refine ⟨?_, ?_, ?_, rfl, fun l' p h1 => ?_, fun n p h1 h2 => ?_⟩
  · simp [paginatedUsers, sliceJs, ITEMS_PER_PAGE, h]
  · simp [paginatedUsers, sliceJs, ITEMS_PER_PAGE, h]
  · rw [h]; rfl
  · constructor
    · simp [paginatedUsers, sliceJs, ITEMS_PER_PAGE]
      omega
    · intro hlen
      simp only [paginatedUsers, sliceJs, ITEMS_PER_PAGE] at hlen ⊢
      simp [List.length_take, List.length_drop]
      omega
  · unfold nextPage prevPage
    split <;> split <;> omega

theorem claim5_pagination_witness :
    (List.replicate 25 uA).length = 25 ∧
    (paginatedUsers (List.replicate 25 uA) 1).length = 10 ∧
    (paginatedUsers (List.replicate 25 uA) 3).length = 5 ∧
    nextPage (List.replicate 25 uA).length 3 = 3 ∧
    prevPage 1 = 1 :=
  have h : (List.replicate 25 uA).length = 25 := by simp
  ⟨h, (claim5_pagination _ h).1, (claim5_pagination _ h).2.1,
    (claim5_pagination _ h).2.2.1, (claim5_pagination _ h).2.2.2.1⟩

/-- C9: with the radius filter active and the current user's coordinate
known, a candidate whose stored structured coordinate has latitude
exactly 0 is rejected by the radius-stage guard (JavaScript `0` is
falsy in `!u.location.latitude`) regardless of its longitude, the
configured radius, and hence its distance. -/
theorem claim9_zero_latitude_always_removed :
    ∀ (self : Coord) (r : ℝ) (l : List User) (u : User)
      (lonOpt : Option ℝ),
      u.location = some (.objVal (some 0) lonOpt) →
      radiusKeep self r u.location = false ∧
      u ∉ radiusStage true (some self) r l := by
  intro self r l u lonOpt h
  have hk : radiusKeep self r u.location = false := by
    rw [h]; simp [radiusKeep]
  exact ⟨hk, not_mem_radiusStage_of_keep_false l hk⟩

theorem claim9_zero_latitude_always_removed_witness :
    uZeroLat.location =
      some (.objVal (some 0) (some (4.9 * 180 / (6371 * Real.pi)))) ∧
    radiusKeep ⟨0, 0⟩ 5 uZeroLat.location = false ∧
    uZeroLat ∉ radiusStage true (some ⟨0, 0⟩) 5 [uZeroLat] :=
  ⟨rfl,
   (claim9_zero_latitude_always_removed ⟨0, 0⟩ 5 [uZeroLat] uZeroLat _ rfl).1,
   (claim9_zero_latitude_always_removed ⟨0, 0⟩ 5 [uZeroLat] uZeroLat _ rfl).2⟩

/-- C7: with the radius filter active, a malformed or partially-present
location value (legacy string; object with a latitude but no longitude;
object with no latitude) is treated like an absent coordinate: the
candidate is removed by the radius stage.  The embedded pipeline is a
total function, matching the JavaScript code, which throws no exception
on such values (an `undefined` longitude only makes the computed
distance `NaN`, and `NaN <= radius` is `false`). -/
theorem claim7_malformed_location_removed :
    ∀ (self : Coord) (r : ℝ) (l : List User) (u : User),
      ((∃ s, u.location = some (.strVal s)) ∨
       (∃ la, u.location = some (.objVal (some la) none)) ∨
       (∃ lonOpt, u.location = some (.objVal none lonOpt))) →
      radiusKeep self r u.location = false ∧
      u ∉ radiusStage true (some self) r l := by
  intro self r l u hmal
  have hk : radiusKeep self r u.location = false := by
    rcases hmal with ⟨s, h⟩ | ⟨la, h⟩ | ⟨lonOpt, h⟩ <;> rw [h]
    · rfl
    · simp [radiusKeep, ite_self]
    · rfl
  exact ⟨hk, not_mem_radiusStage_of_keep_false l hk⟩

theorem claim7_malformed_location_removed_witness :
    uStrLoc.location = some (.strVal "Paris") ∧
    uLatOnly.location = some (.objVal (some 1) none) ∧
    uStrLoc ∉ radiusStage true (some ⟨0, 0⟩) 5 [uStrLoc, uLatOnly] ∧
    uLatOnly ∉ radiusStage true (some ⟨0, 0⟩) 5 [uStrLoc, uLatOnly] :=
  ⟨rfl, rfl,
   (claim7_malformed_location_removed ⟨0, 0⟩ 5 [uStrLoc, uLatOnly] uStrLoc
      (Or.inl ⟨"Paris", rfl⟩)).2,
   (claim7_malformed_location_removed ⟨0, 0⟩ 5 [uStrLoc, uLatOnly] uLatOnly
      (Or.inr (Or.inl ⟨1, rfl⟩))).2⟩

/-- C10: after a successful load, the skill selector list starts with
the sentinel `"All"`, and its tail lists each distinct skill name
occurring in the taught or learned lists of the included candidates
exactly once, in strictly ascending lexicographic order. -/
theorem claim10_skill_selector_sorted :
    ∀ (records : List RawRecord) (uid : String),
      (allSkills records uid).head? = some "All" ∧
      List.Sorted (· < ·) (allSkills records uid).tail ∧
      ∀ s, s ∈ (allSkills records uid).tail ↔
        ∃ r ∈ includedRecords records uid, s ∈ recordSkills r := by
  intro records uid
  refine ⟨rfl, ?_, fun s => ?_⟩
  · have hperm := List.perm_insertionSort (fun a b : String => a ≤ b)
      (collectedSkills records uid)
    have hsorted : List.Sorted (fun a b : String => a ≤ b)
        (List.insertionSort (fun a b => a ≤ b) (collectedSkills records uid)) :=
      List.sorted_insertionSort _ _
    have hnodup : (List.insertionSort (fun a b : String => a ≤ b)
        (collectedSkills records uid)).Nodup :=
      hperm.nodup_iff.mpr (List.nodup_dedup _)
    show List.Sorted (· < ·) (List.insertionSort _ _)
    exact (hsorted.and hnodup).imp fun h => lt_of_le_of_ne h.1 h.2
  · show s ∈ List.insertionSort _ _ ↔ _
    rw [(List.perm_insertionSort _ _).mem_iff, collectedSkills,
      List.mem_dedup, List.mem_flatten]
    constructor
    · rintro ⟨sk, hsk, hmem⟩
      rcases List.mem_map.mp hsk with ⟨r, hr, rfl⟩
      exact ⟨r, hr, hmem⟩
    · rintro ⟨r, hr, hmem⟩
      exact ⟨recordSkills r, List.mem_map.mpr ⟨r, hr, rfl⟩, hmem⟩

/-! ## Real-analysis helper lemmas for the haversine distance -/

lemma sin_toRad_sub_half_sq (x y : ℝ) :
    Real.sin (toRad (x - y) / 2) ^ 2 = Real.sin (toRad (y - x) / 2) ^ 2 := by
  have h : toRad (x - y) / 2 = -(toRad (y - x) / 2) := by
    unfold toRad; ring
  rw [h, Real.sin_neg, neg_sq]

/-- For `0 ≤ x < π/2`, `atan2 √(sin² x) √(1 - sin² x) = x`. -/
lemma atan2_sqrt_sin_sq {x : ℝ} (h0 : 0 ≤ x) (h1 : x < Real.pi / 2) :
    atan2 (Real.sqrt (Real.sin x ^ 2)) (Real.sqrt (1 - Real.sin x ^ 2)) = x := by
  have hpi := Real.pi_pos
  have hsin : Real.sqrt (Real.sin x ^ 2) = Real.sin x := by
    rw [Real.sqrt_sq_eq_abs,
      abs_of_nonneg (Real.sin_nonneg_of_nonneg_of_le_pi h0 (by linarith))]
  have hcos_pos : 0 < Real.cos x :=
    Real.cos_pos_of_mem_Ioo ⟨by linarith, h1⟩
  have h1s : 1 - Real.sin x ^ 2 = Real.cos x ^ 2 := by
    have := Real.sin_sq_add_cos_sq x; linarith
  have hcos : Real.sqrt (1 - Real.sin x ^ 2) = Real.cos x := by
    rw [h1s, Real.sqrt_sq_eq_abs, abs_of_pos hcos_pos]
  rw [hsin, hcos]
  unfold atan2
  rw [if_pos hcos_pos, ← Real.tan_eq_sin_div_cos]
  exact Real.arctan_tan (by linarith) h1

/-- Moving `d` km due north from the origin gives haversine distance
exactly `d` (for `0 ≤ d < 6371 π`). -/
lemma haversine_origin_lat {d : ℝ} (h0 : 0 ≤ d) (h1 : d < 6371 * Real.pi) :
    haversineDistance ⟨0, 0⟩ ⟨d * 180 / (6371 * Real.pi), 0⟩ = d := by
  have hpi := Real.pi_pos
  have hpne := Real.pi_ne_zero
  have e1 : toRad (d * 180 / (6371 * Real.pi) - 0) / 2 = d / 12742 := by
    unfold toRad; field_simp; ring
  have e2 : toRad (0 - 0) / 2 = 0 := by unfold toRad; norm_num
  have e3 : toRad (0 : ℝ) = 0 := by unfold toRad; norm_num
  have hx0 : (0:ℝ) ≤ d / 12742 := by positivity
  have hx1 : d / 12742 < Real.pi / 2 := by
    rw [div_lt_iff₀ (by norm_num : (0:ℝ) < 12742)]
    linarith
  simp only [haversineDistance, e1, e2, e3, Real.sin_zero, Real.cos_zero,
    ne_eq, OfNat.ofNat_ne_zero, not_false_eq_true, zero_pow, mul_zero,
    add_zero, one_mul]
  rw [atan2_sqrt_sin_sq hx0 hx1]
  ring

/-- Moving `d` km due east along the equator from the origin gives
haversine distance exactly `d` (for `0 ≤ d < 6371 π`). -/
lemma haversine_origin_lon {d : ℝ} (h0 : 0 ≤ d) (h1 : d < 6371 * Real.pi) :
    haversineDistance ⟨0, 0⟩ ⟨0, d * 180 / (6371 * Real.pi)⟩ = d := by
  have hpi := Real.pi_pos
  have hpne := Real.pi_ne_zero
  have e1 : toRad (d * 180 / (6371 * Real.pi) - 0) / 2 = d / 12742 := by
    unfold toRad; field_simp; ring
  have e2 : toRad (0 - 0) / 2 = 0 := by unfold toRad; norm_num
  have e3 : toRad (0 : ℝ) = 0 := by unfold toRad; norm_num
  have hx0 : (0:ℝ) ≤ d / 12742 := by positivity
  have hx1 : d / 12742 < Real.pi / 2 := by
    rw [div_lt_iff₀ (by norm_num : (0:ℝ) < 12742)]
    linarith
  simp only [haversineDistance, e1, e2, e3, Real.sin_zero, Real.cos_zero,
    ne_eq, OfNat.ofNat_ne_zero, not_false_eq_true, zero_pow, one_mul,
    zero_add]
  rw [atan2_sqrt_sin_sq hx0 hx1]
  ring

/-- C8: the haversine distance function is symmetric (exactly, in the
real-number model; the floating-point epsilon of the claim is subsumed
by exact equality). -/
theorem claim8_haversine_symmetric :
    ∀ A B : Coord, haversineDistance A B = haversineDistance B A := by
  intro A B
  have key : Real.sin (toRad (B.latitude - A.latitude) / 2) ^ 2 +
      Real.cos (toRad A.latitude) * Real.cos (toRad B.latitude) *
        Real.sin (toRad (B.longitude - A.longitude) / 2) ^ 2 =
      Real.sin (toRad (A.latitude - B.latitude) / 2) ^ 2 +
      Real.cos (toRad B.latitude) * Real.cos (toRad A.latitude) *
        Real.sin (toRad (A.longitude - B.longitude) / 2) ^ 2 := by
    rw [sin_toRad_sub_half_sq B.latitude A.latitude,
      sin_toRad_sub_half_sq B.longitude A.longitude,
      mul_comm (Real.cos (toRad A.latitude)) (Real.cos (toRad B.latitude))]
  simp only [haversineDistance]
  rw [key]

/-- C1 (amended): with the radius filter enabled, radius 5 km, and the
current user at `(0,0)`, a candidate with a full structured coordinate
of nonzero latitude is kept at distance 4.9 km, removed at distance
5.1 km, and a candidate with no coordinate is removed.  (The nonzero
latitude proviso is forced by the truthiness guard, see the
counterexample and C9.) -/
theorem claim1_radius_boundary :
    ∀ (l : List User) (u : User) (la lo : ℝ),
      (u ∈ l → u.location = some (.objVal (some la) (some lo)) →
        la ≠ 0 → haversineDistance ⟨0, 0⟩ ⟨la, lo⟩ = 4.9 →
        u ∈ radiusStage true (some ⟨0, 0⟩) 5 l) ∧
      (u.location = some (.objVal (some la) (some lo)) →
        haversineDistance ⟨0, 0⟩ ⟨la, lo⟩ = 5.1 →
        u ∉ radiusStage true (some ⟨0, 0⟩) 5 l) ∧
      (u.location = none → u ∉ radiusStage true (some ⟨0, 0⟩) 5 l) := by
  intro l u la lo
  refine ⟨fun hmem hloc hla hdist => ?_, fun hloc hdist => ?_, fun hloc => ?_⟩
  · rw [radiusStage_some_eq_filter, List.mem_filter]
    refine ⟨hmem, ?_⟩
    rw [hloc]
    show radiusKeep ⟨0, 0⟩ 5 (some (.objVal (some la) (some lo))) = true
    simp only [radiusKeep]
    rw [if_neg hla]
    simp only [decide_eq_true_eq]
    rw [hdist]
    norm_num
  · refine not_mem_radiusStage_of_keep_false l ?_
    rw [hloc]
    show radiusKeep ⟨0, 0⟩ 5 (some (.objVal (some la) (some lo))) = false
    simp only [radiusKeep]
    rcases eq_or_ne la 0 with h | h
    · rw [if_pos h]
    · rw [if_neg h]
      simp only [decide_eq_false_iff_not]
      rw [hdist]
      norm_num
  · exact not_mem_radiusStage_of_keep_false l (by rw [hloc]; rfl)

/-- C1 is false as stated: `uZeroLat` has a coordinate (latitude 0,
longitude chosen so that its distance from `(0,0)` is exactly 4.9 km),
yet the pipeline with radius filter enabled, radius 5, and current user
at `(0,0)` removes it, because the guard `!u.location.latitude` treats
latitude `0` as "no coordinate". -/
theorem claim1_counterexample :
    uZeroLat.location =
      some (.objVal (some 0) (some (4.9 * 180 / (6371 * Real.pi)))) ∧
    haversineDistance ⟨0, 0⟩ ⟨0, 4.9 * 180 / (6371 * Real.pi)⟩ = 4.9 ∧
    applyFilters [uZeroLat] fsRadius5 (some ⟨0, 0⟩) = [] := by
  refine ⟨rfl, haversine_origin_lon (by norm_num)
    (by nlinarith [Real.pi_gt_three]), ?_⟩
  have h1 : skillRoleStage "All" .All [uZeroLat] = [uZeroLat] := rfl
  have h2 : textStage "" [uZeroLat] = [uZeroLat] := rfl
  show radiusStage true (some ⟨0, 0⟩) 5
    (textStage "" (skillRoleStage "All" .All [uZeroLat])) = []
  rw [h1, h2, radiusStage_some_eq_filter]
  have hk : radiusKeep ⟨0, 0⟩ 5 uZeroLat.location = false := by
    show radiusKeep ⟨0, 0⟩ 5
      (some (.objVal (some 0) (some (4.9 * 180 / (6371 * Real.pi))))) = false
    simp [radiusKeep]
  simp [List.filter, hk]

theorem claim1_radius_boundary_witness :
    uNear ∈ radiusStage true (some ⟨0, 0⟩) 5 [uNear, uFar, uNoLoc] ∧
    uFar ∉ radiusStage true (some ⟨0, 0⟩) 5 [uNear, uFar, uNoLoc] ∧
    uNoLoc ∉ radiusStage true (some ⟨0, 0⟩) 5 [uNear, uFar, uNoLoc] := by
  refine ⟨(claim1_radius_boundary [uNear, uFar, uNoLoc] uNear _ 0).1
      (List.Mem.head _) rfl (ne_of_gt (by positivity))
      (haversine_origin_lat (by norm_num) (by nlinarith [Real.pi_gt_three])),
    (claim1_radius_boundary [uNear, uFar, uNoLoc] uFar _ 0).2.1 rfl
      (haversine_origin_lat (by norm_num) (by nlinarith [Real.pi_gt_three])),
    (claim1_radius_boundary [uNear, uFar, uNoLoc] uNoLoc 0 0).2.2 rfl⟩

end SkillSwap




